import Mathlib

/-!
Verification development for the CarND-Term1 repository.

The development shallowly embeds the three source files

  * Projects/VehicleDetection/processing.py
  * Projects/VehicleDetection/classifier.py
  * Projects/BehavioralCloning/visualize.py

into Lean.  Machine floating point (NumPy / Python doubles) is modelled
exactly: IEEE-754 binary64 values are carried as exact fractions of
integers and every arithmetic operation re-rounds its exact rational
result to 53 bits of mantissa with round-to-nearest, ties-to-even
(overflow and subnormals never occur in the quantities analysed here).
-/

namespace FP

/-- An exact fraction of integers.  All constructors used in this
development keep the denominator strictly positive.  Fractions are not
reduced; they are only ever consumed by operations that are invariant
under scaling of numerator and denominator.  This carrier is used to
represent IEEE-754 double values exactly. -/
structure FQ where
  num : ℤ
  den : ℤ
deriving DecidableEq, Repr

/-- Embed an integer as a fraction. -/
def FQ.ofInt (n : ℤ) : FQ := ⟨n, 1⟩

/-- Exact product of fractions. -/
def FQ.mul (a b : FQ) : FQ := ⟨a.num * b.num, a.den * b.den⟩

/-- Exact difference of fractions. -/
def FQ.sub (a b : FQ) : FQ := ⟨a.num * b.den - b.num * a.den, a.den * b.den⟩

/-- Exact quotient of fractions; the sign is moved into the numerator so
that the denominator stays positive whenever both inputs have positive
denominators and the divisor is nonzero. -/
def FQ.div (a b : FQ) : FQ :=
  if 0 ≤ b.num then ⟨a.num * b.den, a.den * b.num⟩
  else ⟨-(a.num * b.den), a.den * (-b.num)⟩

/-- Value-level order on fractions with positive denominators. -/
def FQ.Le (a b : FQ) : Prop := a.num * b.den ≤ b.num * a.den

/-- Value-level strict order on fractions with positive denominators. -/
def FQ.Lt (a b : FQ) : Prop := a.num * b.den < b.num * a.den

instance (a b : FQ) : Decidable (FQ.Le a b) := by unfold FQ.Le; infer_instance

instance (a b : FQ) : Decidable (FQ.Lt a b) := by unfold FQ.Lt; infer_instance

/-- Mathematical floor of a fraction with positive denominator. -/
def FQ.floor (q : FQ) : ℤ := q.num.fdiv q.den

/-- Truncation toward zero of a fraction with positive denominator; this
is the semantics of Python's int() / np.int on a double. -/
def pyTrunc (q : FQ) : ℤ := q.num.tdiv q.den

/-- Round a fraction (positive denominator) to the nearest integer,
ties to even — the rounding used by IEEE-754 binary64 arithmetic.
The quantity q.num - q.floor * q.den is the remainder, in [0, den). -/
def roundHalfEven (q : FQ) : ℤ :=
  if 2 * (q.num - q.floor * q.den) < q.den then q.floor
  else if q.den < 2 * (q.num - q.floor * q.den) then q.floor + 1
  else if q.floor % 2 = 0 then q.floor
  else q.floor + 1

/-- Fuel-driven floor of the base-2 logarithm of a natural number
(structural recursion so that the kernel can evaluate it). -/
def log2Nat : ℕ → ℕ → ℕ
  | 0, _ => 0
  | fuel + 1, n => if n ≤ 1 then 0 else log2Nat fuel (n / 2) + 1

/-- For 0 < num < den, the smallest k with num * 2^k ≥ den, i.e. the
number of doublings needed to bring the fraction up to 1. -/
def negExpAux : ℕ → ℤ → ℤ → ℕ
  | 0, _, _ => 0
  | fuel + 1, num, den => if den ≤ num then 0 else negExpAux fuel (2 * num) den + 1

/-- Floor of the base-2 logarithm of a positive fraction: the unique e
with 2^e ≤ q < 2^(e+1). -/
def floorLog2 (q : FQ) : ℤ :=
  if q.den ≤ q.num then (log2Nat 64 (q.num.fdiv q.den).toNat : ℤ)
  else -(negExpAux 1100 q.num q.den : ℤ)

/-- Round a strictly positive fraction to the nearest binary64 value:
with e the floor of its base-2 logarithm, scale by 2^(52-e) so that the
mantissa lies in [2^52, 2^53), round it to an integer ties-to-even, and
scale back. -/
def roundDoubleMag (a : FQ) : FQ :=
  if 0 ≤ 52 - floorLog2 a then
    ⟨roundHalfEven ⟨a.num * 2 ^ (52 - floorLog2 a).toNat, a.den⟩,
      2 ^ (52 - floorLog2 a).toNat⟩
  else
    ⟨roundHalfEven ⟨a.num, a.den * 2 ^ (-(52 - floorLog2 a)).toNat⟩ *
      2 ^ (-(52 - floorLog2 a)).toNat, 1⟩

/-- Round an exact fraction to the nearest IEEE-754 binary64 value
(53-bit mantissa, round-to-nearest ties-to-even; overflow and
subnormals are outside the range exercised by this repository and are
not modelled).  Rounding commutes with negation, so the sign is split
off and the magnitude rounded. -/
def roundDouble (q : FQ) : FQ :=
  if q.num = 0 then ⟨0, 1⟩
  else if q.num < 0 then
    ⟨-(roundDoubleMag ⟨-q.num, q.den⟩).num, (roundDoubleMag ⟨-q.num, q.den⟩).den⟩
  else roundDoubleMag ⟨q.num, q.den⟩

/-- IEEE-754 binary64 subtraction: exact difference, then rounding. -/
def fsub (a b : FQ) : FQ := roundDouble (a.sub b)

/-- IEEE-754 binary64 multiplication: exact product, then rounding. -/
def fmul (a b : FQ) : FQ := roundDouble (a.mul b)

/-- IEEE-754 binary64 division: exact quotient, then rounding. -/
def fdiv (a b : FQ) : FQ := roundDouble (a.div b)

/-- The binary64 value obtained by parsing the decimal literal 0.8. -/
def double_0_8 : FQ := roundDouble ⟨4, 5⟩

/-- The binary64 value obtained by parsing the decimal literal 0.99. -/
def double_0_99 : FQ := roundDouble ⟨99, 100⟩

end FP

namespace Processing

/-- One sliding window: a pair of x-coordinates paired with a pair of
y-coordinates, ((startx, endx), (starty, endy)) — exactly the tuples
appended to window_list by slide_window in
Projects/VehicleDetection/processing.py. -/
abbrev Window := (ℤ × ℤ) × (ℤ × ℤ)

/-- Lines 140-141 of processing.py: the per-axis pixel step
np.int(xy_window * (1 - xy_overlap)), computed in binary64 arithmetic
and truncated toward zero. -/
def pix_per_step (window : ℤ) (overlap : FP.FQ) : ℤ :=
  FP.pyTrunc (FP.fmul (FP.FQ.ofInt window) (FP.fsub (FP.FQ.ofInt 1) overlap))

/-- Lines 143-144 of processing.py: the per-axis window count
np.int(span / step) - 1, where the division is Python float (binary64)
division. -/
def n_windows (span step : ℤ) : ℤ :=
  FP.pyTrunc (FP.fdiv (FP.FQ.ofInt span) (FP.FQ.ofInt step)) - 1

/-- slide_window (processing.py lines 134-158).  The overlap fractions
are binary64 values.  When a truncated step is 0 the Python expression
np.int(span / step) raises ZeroDivisionError, which the embedding
models as returning none; otherwise the full window list is returned.
The loop nesting of the source (ys outer, xs inner) is preserved. -/
def slide_window (x_start_stop y_start_stop : ℤ × ℤ) (xy_window : ℤ × ℤ)
    (xy_overlap : FP.FQ × FP.FQ) : Option (List Window) :=
  if pix_per_step xy_window.1 xy_overlap.1 = 0 ∨
     pix_per_step xy_window.2 xy_overlap.2 = 0 then none
  else
    let nx_pix_per_step := pix_per_step xy_window.1 xy_overlap.1
    let ny_pix_per_step := pix_per_step xy_window.2 xy_overlap.2
    let nx_windows := n_windows (x_start_stop.2 - x_start_stop.1) nx_pix_per_step
    let ny_windows := n_windows (y_start_stop.2 - y_start_stop.1) ny_pix_per_step
    some ((List.range ny_windows.toNat).flatMap fun ys =>
      (List.range nx_windows.toNat).map fun xs =>
        let startx := (xs : ℤ) * nx_pix_per_step + x_start_stop.1
        let endx := startx + xy_window.1
        let starty := (ys : ℤ) * ny_pix_per_step + y_start_stop.1
        let endy := starty + xy_window.2
        ((startx, endx), (starty, endy)))

end Processing

namespace FP

lemma floor_nonneg {q : FQ} (hn : 0 ≤ q.num) (hd : 0 ≤ q.den) :
    0 ≤ q.floor := by
  unfold FQ.floor
  rw [Int.fdiv_eq_ediv _ hd]
  exact Int.ediv_nonneg hn hd

lemma roundHalfEven_nonneg {q : FQ} (hn : 0 ≤ q.num) (hd : 0 ≤ q.den) :
    0 ≤ roundHalfEven q := by
  have hf : 0 ≤ q.floor := floor_nonneg hn hd
  unfold roundHalfEven
  split
  · exact hf
  · split
    · omega
    · split <;> omega

lemma roundDoubleMag_nonneg {a : FQ} (hn : 0 ≤ a.num) (hd : 0 ≤ a.den) :
    0 ≤ (roundDoubleMag a).num ∧ 0 < (roundDoubleMag a).den := by
  unfold roundDoubleMag
  split
  · exact ⟨roundHalfEven_nonneg (by positivity) hd, by positivity⟩
  · refine ⟨mul_nonneg (roundHalfEven_nonneg hn (by positivity)) (by positivity), ?_⟩
    norm_num

lemma roundDouble_nonneg {q : FQ} (hn : 0 ≤ q.num) (hd : 0 < q.den) :
    0 ≤ (roundDouble q).num ∧ 0 < (roundDouble q).den := by
  unfold roundDouble
  by_cases h0 : q.num = 0
  · simp [h0]
  · have hneg : ¬ q.num < 0 := not_lt.mpr hn
    rw [if_neg h0, if_neg hneg]
    exact roundDoubleMag_nonneg hn (le_of_lt hd)

lemma pyTrunc_nonneg {q : FQ} (hn : 0 ≤ q.num) (hd : 0 ≤ q.den) :
    0 ≤ pyTrunc q := by
  unfold pyTrunc
  rw [Int.tdiv_eq_ediv hn hd]
  exact Int.ediv_nonneg hn hd

lemma fsub_one_nonneg {ov : FQ} (hd : 0 < ov.den) (h1 : FQ.Le ov ⟨1, 1⟩) :
    0 ≤ (fsub (FQ.ofInt 1) ov).num ∧ 0 < (fsub (FQ.ofInt 1) ov).den := by
  have h1' : ov.num * (1 : ℤ) ≤ 1 * ov.den := h1
  unfold fsub
  apply roundDouble_nonneg
  · show (0 : ℤ) ≤ 1 * ov.den - ov.num * 1
    omega
  · show (0 : ℤ) < 1 * ov.den
    omega

lemma pix_per_step_nonneg {w : ℤ} {ov : FQ} (hw : 0 ≤ w)
    (hd : 0 < ov.den) (h1 : FQ.Le ov ⟨1, 1⟩) :
    0 ≤ Processing.pix_per_step w ov := by
  unfold Processing.pix_per_step fmul
  obtain ⟨hn, hdn⟩ := fsub_one_nonneg hd h1
  have hprod := roundDouble_nonneg (q := (FQ.ofInt w).mul (fsub (FQ.ofInt 1) ov))
    (mul_nonneg hw hn) (by show (0 : ℤ) < 1 * (fsub (FQ.ofInt 1) ov).den; omega)
  exact pyTrunc_nonneg hprod.1 (le_of_lt hprod.2)

end FP

set_option maxRecDepth 100000 in
/-- Claim C1, counterexample.  For slide_window with x bounds (0, 1280),
y bounds (400, 650), window (150, 150) and overlap (0.8, 0.8), the claim
asserts a step of 30 pixels, 41 horizontal windows and 287 windows in
total.  In the source the step is computed as np.int(150 * (1 - 0.8)) in
binary64 arithmetic, where 1 - 0.8 is slightly below 0.2, so the product
is slightly below 30 and truncates to 29; the horizontal count is then
43 and the total 301. -/
theorem C1_slide_window_geometry_counterexample :
    Processing.pix_per_step 150 FP.double_0_8 = 29 ∧ (29 : ℤ) ≠ 30 ∧
    Processing.n_windows 1280 (Processing.pix_per_step 150 FP.double_0_8) = 43 ∧
      (43 : ℤ) ≠ 41 ∧
    (Processing.slide_window (0, 1280) (400, 650) (150, 150)
        (FP.double_0_8, FP.double_0_8)).map List.length = some 301 ∧
      (301 : ℕ) ≠ 287 := by
  decide

set_option maxRecDepth 100000 in
/-- Claim C1, amended.  For slide_window with x bounds (0, 1280), y
bounds (400, 650), window (150, 150) and overlap (0.8, 0.8): the binary64
step per axis truncates to 29 pixels (not 30), the horizontal window
count is 43, the vertical window count is 7, the returned list has 301
windows, every window is exactly 150 pixels wide and 150 pixels tall,
and the first window is ((0, 150), (400, 550)). -/
theorem C1_slide_window_geometry_amended :
    Processing.pix_per_step 150 FP.double_0_8 = 29 ∧
    Processing.n_windows 1280 (Processing.pix_per_step 150 FP.double_0_8) = 43 ∧
    Processing.n_windows 250 (Processing.pix_per_step 150 FP.double_0_8) = 7 ∧
    (Processing.slide_window (0, 1280) (400, 650) (150, 150)
        (FP.double_0_8, FP.double_0_8)).isSome = true ∧
    (Processing.slide_window (0, 1280) (400, 650) (150, 150)
        (FP.double_0_8, FP.double_0_8)).map List.length = some 301 ∧
    (∀ w ∈ (Processing.slide_window (0, 1280) (400, 650) (150, 150)
        (FP.double_0_8, FP.double_0_8)).getD [],
        w.1.2 - w.1.1 = 150 ∧ w.2.2 - w.2.1 = 150) ∧
    ((Processing.slide_window (0, 1280) (400, 650) (150, 150)
        (FP.double_0_8, FP.double_0_8)).getD []).head? =
      some ((0, 150), (400, 550)) := by
  decide

set_option maxRecDepth 100000 in
/-- Claim C10.  slide_window is not total over the documented overlap
domain: with window 64 and overlap 0.99 the binary64 product
64 * (1 - 0.99) truncates to a step of 0 pixels and the window-count
expression divides by zero (modelled as the none result); 0.99 lies in
[0, 1); and in general, for windows of nonnegative size and overlaps in
[0, 1), a window list is returned exactly when the truncated step on
each axis is at least 1. -/
theorem C10_slide_window_zero_step_failure :
    Processing.slide_window (0, 1280) (400, 650) (64, 64)
        (FP.double_0_99, FP.double_0_99) = none ∧
    FP.FQ.Le ⟨0, 1⟩ FP.double_0_99 ∧ FP.FQ.Lt FP.double_0_99 ⟨1, 1⟩ ∧
    ∀ (xb yb w : ℤ × ℤ) (ov : FP.FQ × FP.FQ),
      0 ≤ w.1 → 0 ≤ w.2 →
      0 < ov.1.den → 0 < ov.2.den →
      FP.FQ.Le ⟨0, 1⟩ ov.1 → FP.FQ.Le ⟨0, 1⟩ ov.2 →
      FP.FQ.Lt ov.1 ⟨1, 1⟩ → FP.FQ.Lt ov.2 ⟨1, 1⟩ →
      ((Processing.slide_window xb yb w ov).isSome = true ↔
        1 ≤ Processing.pix_per_step w.1 ov.1 ∧
        1 ≤ Processing.pix_per_step w.2 ov.2) := by
  refine ⟨by decide, by decide, by decide, ?_⟩
  intro xb yb w ov hw1 hw2 hd1 hd2 _ _ hlt1 hlt2
  have hle1 : FP.FQ.Le ov.1 ⟨1, 1⟩ := le_of_lt hlt1
  have hle2 : FP.FQ.Le ov.2 ⟨1, 1⟩ := le_of_lt hlt2
  have hs1 := FP.pix_per_step_nonneg hw1 hd1 hle1
  have hs2 := FP.pix_per_step_nonneg hw2 hd2 hle2
  unfold Processing.slide_window
  by_cases hc : Processing.pix_per_step w.1 ov.1 = 0 ∨
      Processing.pix_per_step w.2 ov.2 = 0
  · rw [if_pos hc]
    simp only [Option.isSome_none, Bool.false_eq_true, false_iff]
    omega
  · rw [if_neg hc]
    simp only [Option.isSome_some, true_iff]
    omega

/-- Witness for the universally quantified part of
C10_slide_window_zero_step_failure, instantiated at the failing input
(window 64, overlap 0.99) with every hypothesis discharged. -/
theorem C10_slide_window_zero_step_failure_witness :
    (Processing.slide_window (0, 1280) (400, 650) (64, 64)
        (FP.double_0_99, FP.double_0_99)).isSome = true ↔
      1 ≤ Processing.pix_per_step 64 FP.double_0_99 ∧
      1 ≤ Processing.pix_per_step 64 FP.double_0_99 :=
  (C10_slide_window_zero_step_failure.2.2.2 (0, 1280) (400, 650) (64, 64)
    (FP.double_0_99, FP.double_0_99) (by decide) (by decide) (by decide)
    (by decide) (by decide) (by decide) (by decide) (by decide))

namespace Visualize

/-- An opaque image value (decoded frame / annotated frame).  The
claims about visualize.py concern control flow, caching and error
ordering, never pixel contents, so images are carried as tokens. -/
abbrev Image := ℤ

/-- The value passed as the img_path argument of heat_map: either a
filesystem path (CSV batch mode) or a raw decoded frame, which is what
from_video passes (visualize.py line 180). -/
inductive ImgInput
  | path (p : String)
  | frame (im : Image)
deriving DecidableEq, Repr

/-- The error conditions raised by heat_map / from_video
(visualize.py: ValueError on zero threshold, ValueError when the image
path does not exist, KeyError on an unknown layer name, ValueError when
ground truth drawing is requested without a value). -/
inductive VisErr
  | thresholdZero
  | imageMissing
  | layerNotFound
  | groundTruthNone
deriving DecidableEq, Repr

/-- Image input/output actions performed by heat_map and from_video, in
order: the os.path.exists check (line 224), the cv2.imread call
(line 225) and the VideoFileClip decode (line 173). -/
inductive TraceEvent
  | checkExists (p : ImgInput)
  | readImage (p : String)
  | decodeVideo
deriving DecidableEq, Repr

/-- The filesystem seen by os.path.exists / cv2.imread. -/
structure FileSystem where
  pathExists : String → Bool
  readImage : String → Image

/-- The arguments of heat_map that feed the numeric pipeline after the
gradients function has been obtained.  layer_name is deliberately
absent: lines 241-283 never read it (it is only consulted when the
cache is built). -/
structure RenderArgs where
  threshold : ℚ
  draw_pred : Bool
  draw_ground_truth : Bool
  ground_truth : Option ℚ
  line_len : ℤ
  line_thk : ℤ
  adaptive_grads : Bool
deriving DecidableEq, Repr

/-- The trained Keras model together with the numeric pipeline of
heat_map (visualize.py lines 229-276): preprocessing, the gradients
function built by K.function from a layer name, the class-activation
map, rectification, colormap and blending are all float computations
with no control flow, so they are modelled as one opaque function
(render) of the layer the cached gradients function was built from, the
raw image, and the drawing arguments.  layers is the key set of
_layer_dict (line 134); an unknown layer name raises KeyError at
line 240. -/
structure ModelOracle where
  layers : List String
  render : String → Image → RenderArgs → Image

/-- The full argument list of heat_map (visualize.py lines 194-203). -/
structure HeatMapArgs where
  layer_name : String
  img_path : ImgInput
  threshold : ℚ
  draw_pred : Bool
  draw_ground_truth : Bool
  ground_truth : Option ℚ
  line_len : ℤ
  line_thk : ℤ
  adaptive_grads : Bool
deriving DecidableEq, Repr

/-- Projection of the heat_map arguments onto the render-relevant ones. -/
def HeatMapArgs.toRender (a : HeatMapArgs) : RenderArgs :=
  ⟨a.threshold, a.draw_pred, a.draw_ground_truth, a.ground_truth,
    a.line_len, a.line_thk, a.adaptive_grads⟩

/-- The tail of heat_map after the image has been read and the
gradients function obtained (visualize.py lines 229-283).  The only
control flow in this stretch is the ground-truth check at lines
277-279: drawing ground truth with no value raises ValueError, after
which no frame is returned; otherwise the annotated frame is produced
by the numeric pipeline. -/
def heatMapTail (M : ModelOracle) (builtLayer : String) (im : Image)
    (r : RenderArgs) : Except VisErr Image :=
  if r.draw_ground_truth = true ∧ r.ground_truth = none then
    .error .groundTruthNone
  else .ok (M.render builtLayer im r)

/-- heat_map (visualize.py lines 194-283) as a state transformer on the
instance field _gradients_function.  The cache stores the layer name
the gradients function was built from, which fully determines it.
Returns the result, the new cache, and the image I/O trace.  Control
flow of the source: (1) threshold == 0 raises before any I/O;
(2) os.path.exists(img_path) — a raw frame array is never an existing
filesystem path, so passing a frame lands in the "Image does not
exist" ValueError branch; (3) cv2.imread; (4) if the cache is empty,
_layer_dict[layer_name] (KeyError when absent) and K.function build the
cache — note the build happens before the ground-truth check, so a call
failing that check still populates the cache; (5) the tail. -/
def heat_map (M : ModelOracle) (fs : FileSystem) (a : HeatMapArgs)
    (cache : Option String) :
    Except VisErr Image × Option String × List TraceEvent :=
  if a.threshold = 0 then (.error .thresholdZero, cache, [])
  else
    match a.img_path with
    | .frame f => (.error .imageMissing, cache, [.checkExists (.frame f)])
    | .path p =>
      if fs.pathExists p then
        match cache with
        | some L =>
            (heatMapTail M L (fs.readImage p) a.toRender, some L,
              [.checkExists (.path p), .readImage p])
        | none =>
            if a.layer_name ∈ M.layers then
              (heatMapTail M a.layer_name (fs.readImage p) a.toRender,
                some a.layer_name, [.checkExists (.path p), .readImage p])
            else
              (.error .layerNotFound, none,
                [.checkExists (.path p), .readImage p])
      else (.error .imageMissing, cache, [.checkExists (.path p)])

/-- The argument list of from_video (visualize.py lines 137-147).
max_frames = none models the max_frames None / np.inf default
(lines 170-171); adaptive_grads is not passed by from_video, so
heat_map's default False applies. -/
structure FromVideoArgs where
  layer_name : String
  max_frames : Option ℕ
  threshold : ℚ
  draw_pred : Bool
  draw_ground_truth : Bool
  ground_truth : Option ℚ
  line_len : ℤ
  line_thk : ℤ
deriving DecidableEq, Repr

/-- The heat_map argument record built by the call at visualize.py
lines 178-187: the decoded frame itself is passed as img_path. -/
def FromVideoArgs.frameCall (v : FromVideoArgs) (f : Image) : HeatMapArgs :=
  ⟨v.layer_name, .frame f, v.threshold, v.draw_pred, v.draw_ground_truth,
    v.ground_truth, v.line_len, v.line_thk, false⟩

/-- A video as decoded by VideoFileClip: its frames and its frame rate. -/
structure Video where
  frames : List Image
  fps : ℚ
deriving DecidableEq, Repr

/-- The frame loop of from_video (lines 175-188): one heat_map call per
decoded frame, threading the gradients-function cache; an exception in
any call aborts the whole loop. -/
def processFrames (M : ModelOracle) (fs : FileSystem) (v : FromVideoArgs) :
    List Image → Option String →
    Except VisErr (List Image) × Option String × List TraceEvent
  | [], cache => (.ok [], cache, [])
  | f :: rest, cache =>
    match heat_map M fs (v.frameCall f) cache with
    | (.error e, cache1, t) => (.error e, cache1, t)
    | (.ok out, cache1, t) =>
      match processFrames M fs v rest cache1 with
      | (.error e, cache2, t2) => (.error e, cache2, t ++ t2)
      | (.ok outs, cache2, t2) => (.ok (out :: outs), cache2, t ++ t2)

/-- from_video (visualize.py lines 137-192): zero-threshold check
before the video is opened; then decode, process each frame up to
max_frames, and assemble the annotated frames into a video at the
source video's frame rate (ImageSequenceClip(frames, fps=original.fps),
line 190). -/
def from_video (M : ModelOracle) (fs : FileSystem) (video : Video)
    (v : FromVideoArgs) (cache : Option String) :
    Except VisErr Video × Option String × List TraceEvent :=
  if v.threshold = 0 then (.error .thresholdZero, cache, [])
  else
    match processFrames M fs v
        (match v.max_frames with
         | none => video.frames
         | some m => video.frames.take m) cache with
    | (.error e, cache1, t) => (.error e, cache1, .decodeVideo :: t)
    | (.ok outs, cache1, t) => (.ok ⟨outs, video.fps⟩, cache1, .decodeVideo :: t)

/-- _grad_cam_loss (visualize.py lines 285-307).  The branch structure
is embedded exactly (strict comparisons on both sides); the body of the
near-zero branch is a transcendental float computation (np.log, np.exp)
whose numeric content none of the claims touch, so that branch's result
is represented by a dedicated constructor carrying its inputs. -/
inductive GCResult
  | unchanged (gradients : List ℚ)
  | negated (gradients : List ℚ)
  | gaussBump (gradients : List ℚ) (angle threshold : ℚ)
deriving DecidableEq, Repr

/-- The branch selection and the two exactly-representable branch
bodies of _grad_cam_loss: gradients returned unchanged when
angle > threshold, negated when angle < -threshold, and otherwise the
Gaussian-bump transform. -/
def grad_cam_loss (gradients : List ℚ) (angle threshold : ℚ) : GCResult :=
  if angle > threshold then .unchanged gradients
  else if angle < -threshold then .negated (gradients.map (fun g => -g))
  else .gaussBump gradients angle threshold

lemma heatMapTail_gt_none (M : ModelOracle) (L : String) (im : Image)
    {r : RenderArgs} (hgt : r.draw_ground_truth = true)
    (hnone : r.ground_truth = none) :
    heatMapTail M L im r = .error .groundTruthNone := by
  unfold heatMapTail
  rw [if_pos ⟨hgt, hnone⟩]

/-- A one-layer model oracle used for concrete instantiations. -/
def M1 : ModelOracle := ⟨[("conv2d_4" : String)], fun _ _ _ => 3⟩

/-- A filesystem on which every path exists. -/
def fsAll : FileSystem := ⟨fun _ => true, fun _ => 7⟩

/-- Concrete heat_map arguments: an existing path, threshold 1, no
ground-truth drawing. -/
def argsOk : HeatMapArgs :=
  ⟨("conv2d_4"), .path ("img.png"), 1, true, false, none, 50, 2, false⟩

/-- Concrete heat_map arguments with threshold exactly 0. -/
def argsZero : HeatMapArgs :=
  ⟨("conv2d_4"), .path ("img.png"), 0, true, false, none, 50, 2, false⟩

/-- Concrete heat_map arguments requesting ground-truth drawing with no
ground-truth value supplied. -/
def argsGT : HeatMapArgs :=
  ⟨("conv2d_4"), .path ("img.png"), 1, true, true, none, 50, 2, false⟩

/-- Concrete from_video arguments with threshold 1 and no frame limit. -/
def vArgs : FromVideoArgs :=
  ⟨("conv2d_4"), none, 1, true, false, none, 50, 2⟩

/-- Concrete from_video arguments with threshold exactly 0. -/
def vArgsZero : FromVideoArgs :=
  ⟨("conv2d_4"), none, 0, true, false, none, 50, 2⟩

end Visualize

/-- Claim C2.  The claim states that in video mode every decoded frame,
passed directly to heat_map, yields an annotated frame.  In the source,
from_video passes the raw frame array as heat_map's img_path argument
(line 180); heat_map then asks os.path.exists(img_path) (line 224),
which can never hold of an in-memory frame, and raises
ValueError('Image does not exist') instead of annotating.  Evaluated at
a failing input (a single-frame video, no frame limit, threshold 0.1's
stand-in 1, an all-paths-exist filesystem and a model containing the
requested layer): from_video fails on the first frame and produces no
output video. -/
theorem C2_from_video_frame_input_fails :
    Visualize.from_video Visualize.M1 Visualize.fsAll ⟨[5], 24⟩
        Visualize.vArgs none =
      (.error .imageMissing, none,
        [.decodeVideo, .checkExists (.frame 5)]) := by
  rfl

/-- Claim C3, counterexample.  _grad_cam_loss compares with strict
inequalities (angle > threshold, angle < -threshold), so at angle
exactly equal to the threshold (here 1 = 1) it takes the Gaussian-bump
branch, not the pass-through branch the claim asserts; likewise at
angle exactly equal to minus the threshold it takes the Gaussian-bump
branch, not the negate branch. -/
theorem C3_grad_cam_boundary_counterexample :
    Visualize.grad_cam_loss [1] 1 1 = .gaussBump [1] 1 1 ∧
    Visualize.grad_cam_loss [1] 1 1 ≠ .unchanged [1] ∧
    Visualize.grad_cam_loss [1] (-1) 1 = .gaussBump [1] (-1) 1 ∧
    Visualize.grad_cam_loss [1] (-1) 1 ≠ .negated ([(-1 : ℚ)]) := by
  have h1 : Visualize.grad_cam_loss [1] 1 1 = .gaussBump [1] 1 1 := by
    norm_num [Visualize.grad_cam_loss]
  have h2 : Visualize.grad_cam_loss [1] (-1) 1 = .gaussBump [1] (-1) 1 := by
    norm_num [Visualize.grad_cam_loss]
  refine ⟨h1, ?_, h2, ?_⟩ <;> simp [h1, h2]

/-- Claim C3, amended.  For every gradient tensor and every positive
threshold t, _grad_cam_loss takes the Gaussian-bump branch at predicted
angle exactly t and at predicted angle exactly -t (the comparisons are
strict); the pass-through branch requires angle strictly above t and
the negate branch angle strictly below -t. -/
theorem C3_grad_cam_boundary_amended :
    ∀ (g : List ℚ) (t : ℚ), 0 < t →
      Visualize.grad_cam_loss g t t = .gaussBump g t t ∧
      Visualize.grad_cam_loss g (-t) t = .gaussBump g (-t) t ∧
      (∀ a, t < a → Visualize.grad_cam_loss g a t = .unchanged g) ∧
      (∀ a, a < -t →
        Visualize.grad_cam_loss g a t = .negated (g.map (fun x => -x))) := by
  intro g t ht
  refine ⟨?_, ?_, ?_, ?_⟩
  · unfold Visualize.grad_cam_loss
    rw [if_neg (lt_irrefl t), if_neg (by linarith)]
  · unfold Visualize.grad_cam_loss
    rw [if_neg (by linarith), if_neg (lt_irrefl (-t))]
  · intro a ha
    unfold Visualize.grad_cam_loss
    rw [if_pos ha]
  · intro a ha
    unfold Visualize.grad_cam_loss
    rw [if_neg (by linarith), if_pos ha]

/-- Witness for C3_grad_cam_boundary_amended at gradient tensor [1] and
threshold 1. -/
theorem C3_grad_cam_boundary_amended_witness :
    Visualize.grad_cam_loss [(1 : ℚ)] 1 1 = .gaussBump [1] 1 1 ∧
    Visualize.grad_cam_loss [(1 : ℚ)] (-1) 1 = .gaussBump [1] (-1) 1 :=
  ⟨(C3_grad_cam_boundary_amended [1] 1 (by norm_num)).1,
   (C3_grad_cam_boundary_amended [1] 1 (by norm_num)).2.1⟩

/-- Claim C4.  The differentiable gradients function is cached on the
instance: (i) any call made with a populated cache leaves the cache
unchanged; (ii) such a call's entire result is independent of its
layer_name argument; (iii) a first call that succeeds populates the
cache with that call's layer name. -/
theorem C4_gradients_function_cached_once :
    ∀ (M : Visualize.ModelOracle) (fs : Visualize.FileSystem)
      (a : Visualize.HeatMapArgs) (L ℓ : String),
      (Visualize.heat_map M fs a (some L)).2.1 = some L ∧
      Visualize.heat_map M fs { a with layer_name := ℓ } (some L) =
        Visualize.heat_map M fs a (some L) ∧
      (∀ img, (Visualize.heat_map M fs a none).1 = .ok img →
        (Visualize.heat_map M fs a none).2.1 = some a.layer_name) := by
  intro M fs a L ℓ
  obtain ⟨ln, ip, th, dp, dg, gt, llen, lthk, ag⟩ := a
  refine ⟨?_, ?_, ?_⟩
  · cases ip with
    | frame f => by_cases ht : th = 0 <;> simp [Visualize.heat_map, ht]
    | path p =>
      by_cases ht : th = 0 <;> by_cases hex : fs.pathExists p <;>
        simp [Visualize.heat_map, ht, hex]
  · cases ip with
    | frame f => by_cases ht : th = 0 <;> simp [Visualize.heat_map, ht]
    | path p =>
      by_cases ht : th = 0 <;> by_cases hex : fs.pathExists p <;>
        simp [Visualize.heat_map, ht, hex, Visualize.HeatMapArgs.toRender]
  · intro img h
    cases ip with
    | frame f =>
      by_cases ht : th = 0 <;> simp [Visualize.heat_map, ht] at h
    | path p =>
      by_cases ht : th = 0
      · simp [Visualize.heat_map, ht] at h
      · by_cases hex : fs.pathExists p
        · by_cases hl : ln ∈ M.layers
          · simp [Visualize.heat_map, ht, hex, hl]
          · simp [Visualize.heat_map, ht, hex, hl] at h
        · simp [Visualize.heat_map, ht, hex] at h

/-- Witness for C4_gradients_function_cached_once: with a populated
cache the cache survives and the layer_name argument is irrelevant, and
a successful first call caches its own layer name. -/
theorem C4_gradients_function_cached_once_witness :
    (Visualize.heat_map Visualize.M1 Visualize.fsAll Visualize.argsOk
        (some ("other"))).2.1 = some ("other") ∧
    Visualize.heat_map Visualize.M1 Visualize.fsAll
        { Visualize.argsOk with layer_name := ("unused") } (some ("other")) =
      Visualize.heat_map Visualize.M1 Visualize.fsAll Visualize.argsOk
        (some ("other")) ∧
    (Visualize.heat_map Visualize.M1 Visualize.fsAll Visualize.argsOk
        none).2.1 = some ("conv2d_4") := by
  obtain ⟨h1, h2, h3⟩ := C4_gradients_function_cached_once Visualize.M1
    Visualize.fsAll Visualize.argsOk ("other") ("unused")
  exact ⟨h1, h2, h3 3 (by rfl)⟩

/-- Claim C5.  With threshold exactly 0 both heat_map and from_video
fail immediately with the invalid-parameter error, the cache untouched
and the image I/O trace empty — in particular before any existence
check, image read or video decode. -/
theorem C5_zero_threshold_rejected_before_io :
    (∀ (M : Visualize.ModelOracle) (fs : Visualize.FileSystem)
       (a : Visualize.HeatMapArgs) (c : Option String),
       a.threshold = 0 →
       Visualize.heat_map M fs a c = (.error .thresholdZero, c, [])) ∧
    (∀ (M : Visualize.ModelOracle) (fs : Visualize.FileSystem)
       (video : Visualize.Video) (v : Visualize.FromVideoArgs)
       (c : Option String),
       v.threshold = 0 →
       Visualize.from_video M fs video v c =
         (.error .thresholdZero, c, [])) := by
  constructor
  · intro M fs a c h
    unfold Visualize.heat_map
    rw [if_pos h]
  · intro M fs video v c h
    unfold Visualize.from_video
    rw [if_pos h]

/-- Witness for C5_zero_threshold_rejected_before_io at concrete
zero-threshold calls. -/
theorem C5_zero_threshold_rejected_before_io_witness :
    Visualize.heat_map Visualize.M1 Visualize.fsAll Visualize.argsZero none =
      (.error .thresholdZero, none, []) ∧
    Visualize.from_video Visualize.M1 Visualize.fsAll ⟨[5], 24⟩
        Visualize.vArgsZero none = (.error .thresholdZero, none, []) :=
  ⟨C5_zero_threshold_rejected_before_io.1 Visualize.M1 Visualize.fsAll
      Visualize.argsZero none rfl,
   C5_zero_threshold_rejected_before_io.2 Visualize.M1 Visualize.fsAll
      ⟨[5], 24⟩ Visualize.vArgsZero none rfl⟩

/-- Claim C6.  Whenever heat_map is called with ground-truth drawing
enabled and no ground-truth value, no annotated frame is returned:
(i) the result is never ok; (ii) on the path that reaches the
ground-truth check (nonzero threshold, existing image, populated
cache) the error is precisely the ground-truth ValueError. -/
theorem C6_ground_truth_none_rejected :
    (∀ (M : Visualize.ModelOracle) (fs : Visualize.FileSystem)
       (a : Visualize.HeatMapArgs) (c : Option String) (img : Visualize.Image),
       a.draw_ground_truth = true → a.ground_truth = none →
       (Visualize.heat_map M fs a c).1 ≠ .ok img) ∧
    (∀ (M : Visualize.ModelOracle) (fs : Visualize.FileSystem)
       (a : Visualize.HeatMapArgs) (L : String) (p : String),
       a.draw_ground_truth = true → a.ground_truth = none →
       a.threshold ≠ 0 → a.img_path = .path p → fs.pathExists p = true →
       (Visualize.heat_map M fs a (some L)).1 = .error .groundTruthNone) := by
  constructor
  · intro M fs a c img hgt hnone
    have hgt' : a.toRender.draw_ground_truth = true := hgt
    have hnone' : a.toRender.ground_truth = none := hnone
    obtain ⟨ln, ip, th, dp, dg, gt, llen, lthk, ag⟩ := a
    cases ip with
    | frame f =>
      by_cases ht : th = 0 <;> simp [Visualize.heat_map, ht]
    | path p =>
      by_cases ht : th = 0
      · simp [Visualize.heat_map, ht]
      · by_cases hex : fs.pathExists p
        · cases c with
          | some L =>
            simp [Visualize.heat_map, ht, hex,
              Visualize.heatMapTail_gt_none M L _ hgt' hnone']
          | none =>
            by_cases hl : ln ∈ M.layers
            · simp [Visualize.heat_map, ht, hex, hl,
                Visualize.heatMapTail_gt_none M ln _ hgt' hnone']
            · simp [Visualize.heat_map, ht, hex, hl]
        · simp [Visualize.heat_map, ht, hex]
  · intro M fs a L p hgt hnone ht hip hex
    have hgt' : a.toRender.draw_ground_truth = true := hgt
    have hnone' : a.toRender.ground_truth = none := hnone
    unfold Visualize.heat_map
    rw [if_neg ht, hip]
    simp [hex, Visualize.heatMapTail_gt_none M L _ hgt' hnone']

/-- Witness for C6_ground_truth_none_rejected at concrete arguments
requesting ground truth with none supplied. -/
theorem C6_ground_truth_none_rejected_witness :
    (Visualize.heat_map Visualize.M1 Visualize.fsAll Visualize.argsGT
        none).1 ≠ Except.ok 3 ∧
    (Visualize.heat_map Visualize.M1 Visualize.fsAll Visualize.argsGT
        (some ("conv2d_4"))).1 = .error .groundTruthNone :=
  ⟨C6_ground_truth_none_rejected.1 Visualize.M1 Visualize.fsAll
      Visualize.argsGT none 3 rfl rfl,
   C6_ground_truth_none_rejected.2 Visualize.M1 Visualize.fsAll
      Visualize.argsGT ("conv2d_4") ("img.png") rfl rfl (by norm_num [Visualize.argsGT])
      rfl rfl⟩

namespace Visualize

/-- One row of driving_log.csv as read by load_data (visualize.py
lines 320-321): the seven named columns. -/
structure LogRow where
  centerImage : String
  leftImage : String
  rightImage : String
  steeringAngle : ℚ
  throttle : ℚ
  brake : ℚ
  speed : ℚ

/-- Python str.replace with a single-character pattern and a
single-character replacement: map over the characters. -/
def pyReplaceChar (s : List Char) (old new : Char) : List Char :=
  s.map fun c => if c = old then new else c

/-- Python str.replace with a single-character pattern and the empty
replacement: drop every occurrence. -/
def pyRemoveChar (s : List Char) (old : Char) : List Char :=
  s.filter fun c => c != old

/-- The per-field path construction of load_data (visualize.py
lines 324-326): path + str(im).replace(' ', '').replace('\\', '/') —
the raw field has its spaces removed, then its backslashes turned into
forward slashes, and the base directory is prefixed unchanged. -/
def normalizeImagePath (path : String) (im : String) : String :=
  path ++ String.mk (pyReplaceChar (pyRemoveChar im.toList ' ') '\\' '/')

/-- The dictionary returned by load_data (visualize.py lines 322-327). -/
structure DrivingLog where
  angles : List ℚ
  center : List String
  right : List String
  left : List String
deriving DecidableEq, Repr

/-- load_data (visualize.py lines 310-328): parse the CSV into parallel
arrays; the steering angles are taken as given and each of the three
image-path columns is normalized and prefixed with the base directory. -/
def load_data (path : String) (rows : List LogRow) : DrivingLog :=
  { angles := rows.map (fun r => r.steeringAngle)
    center := rows.map (fun r => normalizeImagePath path r.centerImage)
    right := rows.map (fun r => normalizeImagePath path r.rightImage)
    left := rows.map (fun r => normalizeImagePath path r.leftImage) }

end Visualize

/-- Claim C7.  The driving-log loader forms every image path by taking
the raw CSV field, removing all space characters, converting every
backslash to a forward slash, and prefixing the base directory (stated
for all three camera columns through the character-level description of
the two replacements); and on the concrete raw field
'Data\IMG\center_2017.jpg ' (trailing space, backslashes) with base
directory '/proj/Data/Center/' the loader produces
'/proj/Data/Center/Data/IMG/center_2017.jpg'. -/
theorem C7_driving_log_path_normalization :
    (∀ (path : String) (rows : List Visualize.LogRow) (i : ℕ),
      (Visualize.load_data path rows).center.get? i =
        (rows.get? i).map (fun r =>
          path ++ String.mk (((r.centerImage.toList.filter
            (fun c => c != ' ')).map
            (fun c => if c = '\\' then '/' else c)))) ∧
      (Visualize.load_data path rows).left.get? i =
        (rows.get? i).map (fun r =>
          path ++ String.mk (((r.leftImage.toList.filter
            (fun c => c != ' ')).map
            (fun c => if c = '\\' then '/' else c)))) ∧
      (Visualize.load_data path rows).right.get? i =
        (rows.get? i).map (fun r =>
          path ++ String.mk (((r.rightImage.toList.filter
            (fun c => c != ' ')).map
            (fun c => if c = '\\' then '/' else c)))) ∧
      (Visualize.load_data path rows).angles.get? i =
        (rows.get? i).map (fun r => r.steeringAngle)) ∧
    Visualize.normalizeImagePath ("/proj/Data/Center/")
        ("Data\\IMG\\center_2017.jpg ") =
      ("/proj/Data/Center/Data/IMG/center_2017.jpg") := by
  constructor
  · intro path rows i
    refine ⟨?_, ?_, ?_, ?_⟩ <;>
      simp [Visualize.load_data, List.get?_map, Visualize.normalizeImagePath,
        Visualize.pyReplaceChar, Visualize.pyRemoveChar]
  · decide

namespace Classifier

/-- The five vehicle-positive dataset subfolders scanned by load_data
(classifier.py lines 15-21), in source order. -/
def vehicle_folders : List String :=
  ["vehicles/GTI_Far/", "vehicles/GTI_Left/", "vehicles/GTI_MiddleClose/",
   "vehicles/GTI_Right/", "vehicles/KITTI_extracted/"]

/-- The two non-vehicle dataset subfolders scanned by load_data
(classifier.py lines 22-25), in source order. -/
def non_vehicle_folders : List String :=
  ["non-vehicles/Extras/", "non-vehicles/GTI/"]

/-- The accumulating dictionary built by load_data (classifier.py
line 27) before feature extraction: matched file paths, labels, and the
two class counters.  (The subsequent extract_features / StandardScaler
stage, lines 41-43, replaces the features entry with numeric vectors
and leaves labels and counts untouched, so it does not affect the
properties proved here.) -/
structure RawData where
  features : List String
  labels : List ℕ
  v_cnt : ℕ
  nv_cnt : ℕ
deriving DecidableEq, Repr

/-- load_data (classifier.py lines 13-45) up to the feature-extraction
stage.  globPng models glob.glob(folder + '*.png'): the list of .png
files found in a folder, in scan order; cwd models
os.getcwd() + '/VehicleDetection/Data/'.  The first loop appends every
vehicle image with label 1 and bumps v_cnt; the second appends every
non-vehicle image with label 0 and bumps nv_cnt. -/
def load_data (globPng : String → List String) (cwd : String) : RawData :=
  non_vehicle_folders.foldl (fun d folder =>
    (globPng (cwd ++ folder)).foldl (fun e p =>
      ⟨e.features ++ [p], e.labels ++ [0], e.v_cnt, e.nv_cnt + 1⟩) d)
    (vehicle_folders.foldl (fun d folder =>
      (globPng (cwd ++ folder)).foldl (fun e p =>
        ⟨e.features ++ [p], e.labels ++ [1], e.v_cnt + 1, e.nv_cnt⟩) d)
      ⟨[], [], 0, 0⟩)

lemma vehicle_inner_fold (ps : List String) (d : RawData) :
    ps.foldl (fun e p =>
      (⟨e.features ++ [p], e.labels ++ [1], e.v_cnt + 1, e.nv_cnt⟩ : RawData)) d =
    ⟨d.features ++ ps, d.labels ++ List.replicate ps.length 1,
      d.v_cnt + ps.length, d.nv_cnt⟩ := by
  induction ps generalizing d with
  | nil => simp
  | cons p rest ih =>
    simp only [List.foldl_cons, ih, List.length_cons, RawData.mk.injEq,
      List.replicate_succ]
    refine ⟨by simp, by simp, by omega, by simp⟩

lemma non_vehicle_inner_fold (ps : List String) (d : RawData) :
    ps.foldl (fun e p =>
      (⟨e.features ++ [p], e.labels ++ [0], e.v_cnt, e.nv_cnt + 1⟩ : RawData)) d =
    ⟨d.features ++ ps, d.labels ++ List.replicate ps.length 0,
      d.v_cnt, d.nv_cnt + ps.length⟩ := by
  induction ps generalizing d with
  | nil => simp
  | cons p rest ih =>
    simp only [List.foldl_cons, ih, List.length_cons, RawData.mk.injEq,
      List.replicate_succ]
    refine ⟨by simp, by simp, by simp, by omega⟩

lemma vehicle_outer_fold (globPng : String → List String) (cwd : String)
    (folders : List String) (d : RawData) :
    folders.foldl (fun d folder =>
      (globPng (cwd ++ folder)).foldl (fun e p =>
        (⟨e.features ++ [p], e.labels ++ [1], e.v_cnt + 1, e.nv_cnt⟩ :
          RawData)) d) d =
    ⟨d.features ++ folders.flatMap (fun f => globPng (cwd ++ f)),
      d.labels ++ List.replicate
        ((folders.map (fun f => (globPng (cwd ++ f)).length)).sum) 1,
      d.v_cnt + (folders.map (fun f => (globPng (cwd ++ f)).length)).sum,
      d.nv_cnt⟩ := by
  induction folders generalizing d with
  | nil => simp
  | cons f rest ih =>
    rw [List.foldl_cons, ih, vehicle_inner_fold]
    simp only [List.flatMap_cons, List.map_cons, List.sum_cons,
      RawData.mk.injEq, List.replicate_add, List.append_assoc]
    refine ⟨by trivial, by trivial, by omega, by trivial⟩

lemma non_vehicle_outer_fold (globPng : String → List String) (cwd : String)
    (folders : List String) (d : RawData) :
    folders.foldl (fun d folder =>
      (globPng (cwd ++ folder)).foldl (fun e p =>
        (⟨e.features ++ [p], e.labels ++ [0], e.v_cnt, e.nv_cnt + 1⟩ :
          RawData)) d) d =
    ⟨d.features ++ folders.flatMap (fun f => globPng (cwd ++ f)),
      d.labels ++ List.replicate
        ((folders.map (fun f => (globPng (cwd ++ f)).length)).sum) 0,
      d.v_cnt,
      d.nv_cnt + (folders.map (fun f => (globPng (cwd ++ f)).length)).sum⟩ := by
  induction folders generalizing d with
  | nil => simp
  | cons f rest ih =>
    rw [List.foldl_cons, ih, non_vehicle_inner_fold]
    simp only [List.flatMap_cons, List.map_cons, List.sum_cons,
      RawData.mk.injEq, List.replicate_add, List.append_assoc]
    refine ⟨by trivial, by trivial, by trivial, by omega⟩

/-- A synthetic dataset layout: 5 PNG files under vehicles/GTI_Far,
3 under non-vehicles/Extras, every other folder empty. -/
def exampleGlob : String → List String := fun s =>
  if s = ("Data/" ++ "vehicles/GTI_Far/") then
    [("1.png"), ("2.png"), ("3.png"), ("4.png"), ("5.png")]
  else if s = ("Data/" ++ "non-vehicles/Extras/") then
    [("6.png"), ("7.png"), ("8.png")]
  else []

end Classifier

/-- Claim C8.  For every dataset layout the classifier's load_data
reports v_cnt equal to the number of .png files found across the five
vehicle subfolders and nv_cnt equal to the number found across the two
non-vehicle subfolders, and its labels list is v_cnt ones followed, in
scan order, by nv_cnt zeros (no shuffling at load time); on the
synthetic layout with 5 PNGs under vehicles/GTI_Far and 3 under
non-vehicles/Extras this gives v_cnt = 5, nv_cnt = 3 and labels
[1, 1, 1, 1, 1, 0, 0, 0]. -/
theorem C8_classifier_load_data_counts :
    (∀ (globPng : String → List String) (cwd : String),
      (Classifier.load_data globPng cwd).v_cnt =
        (Classifier.vehicle_folders.map
          (fun f => (globPng (cwd ++ f)).length)).sum ∧
      (Classifier.load_data globPng cwd).nv_cnt =
        (Classifier.non_vehicle_folders.map
          (fun f => (globPng (cwd ++ f)).length)).sum ∧
      (Classifier.load_data globPng cwd).labels =
        List.replicate (Classifier.load_data globPng cwd).v_cnt 1 ++
          List.replicate (Classifier.load_data globPng cwd).nv_cnt 0) ∧
    (Classifier.load_data Classifier.exampleGlob ("Data/")).v_cnt = 5 ∧
    (Classifier.load_data Classifier.exampleGlob ("Data/")).nv_cnt = 3 ∧
    (Classifier.load_data Classifier.exampleGlob ("Data/")).labels =
      [1, 1, 1, 1, 1, 0, 0, 0] := by
  refine ⟨?_, by decide, by decide, by decide⟩
  intro globPng cwd
  unfold Classifier.load_data
  rw [Classifier.vehicle_outer_fold, Classifier.non_vehicle_outer_fold]
  simp

namespace Processing

/-- A pixel color (BGR triple). -/
abbrev Color := ℤ × ℤ × ℤ

/-- The contents of an image array: a total map from integer pixel
coordinates to colors. -/
abbrev ImageGrid := ℤ × ℤ → Color

/-- A bounding box as passed to draw_boxes: a pair of corner points. -/
abbrev Box := (ℤ × ℤ) × (ℤ × ℤ)

/-- cv2.rectangle(im, p1, p2, color, thick): paints the pixels lying on
the outline of the axis-aligned rectangle spanned by the two corners
(a band of the given thickness around the border) with the color,
leaving every other pixel as it was.  The array is modified in place;
this function gives its new contents. -/
def cvRectangle (im : ImageGrid) (p1 p2 : ℤ × ℤ) (color : Color)
    (thick : ℤ) : ImageGrid :=
  fun q =>
    if (min p1.1 p2.1 - thick ≤ q.1 ∧ q.1 ≤ max p1.1 p2.1 + thick ∧
        min p1.2 p2.2 - thick ≤ q.2 ∧ q.2 ≤ max p1.2 p2.2 + thick) ∧
       ¬ (min p1.1 p2.1 + thick < q.1 ∧ q.1 < max p1.1 p2.1 - thick ∧
          min p1.2 p2.2 + thick < q.2 ∧ q.2 < max p1.2 p2.2 - thick)
    then color else im q

/-- The heap of live NumPy arrays; an array reference is an index into
this list.  This makes the aliasing/mutation behaviour of the source
explicit so that non-mutation can be stated. -/
abbrev Heap := List ImageGrid

/-- draw_boxes (processing.py lines 181-189) with NumPy's reference
semantics spelled out: np.copy(img) allocates a fresh array with the
same contents (a new heap cell), each cv2.rectangle call mutates only
that fresh array, and the reference to the copy is returned.  none
models an invalid input reference (never reached by the source's
callers). -/
def draw_boxes (heap : Heap) (img : ℕ) (bboxes : List Box) (color : Color)
    (thick : ℤ) : Option (Heap × ℕ) :=
  match heap.get? img with
  | none => none
  | some grid =>
    some (heap ++ [bboxes.foldl
      (fun acc bbox => cvRectangle acc bbox.1 bbox.2 color thick) grid],
      heap.length)

/-- Example heap holding one all-black image. -/
def exHeap : Heap := [fun _ => (0, 0, 0)]

/-- Example box list for the draw_boxes witness. -/
def exBoxes : List Box := [((1, 1), (3, 3))]

/-- The contents of the copy draw_boxes produces on the example heap. -/
def exDrawn : ImageGrid :=
  exBoxes.foldl (fun acc bbox => cvRectangle acc bbox.1 bbox.2 (0, 0, 255) 6)
    (fun _ => (0, 0, 0))

end Processing

/-- Claim C9.  draw_boxes never mutates the input image: whatever it
returns, the heap cell of the input reference is unchanged, the
returned reference is a different cell, and that cell holds the input's
contents with the rectangles drawn on top. -/
theorem C9_draw_boxes_no_mutation :
    ∀ (heap : Processing.Heap) (img : ℕ) (bboxes : List Processing.Box)
      (color : Processing.Color) (thick : ℤ) (out : Processing.Heap × ℕ),
      Processing.draw_boxes heap img bboxes color thick = some out →
      out.1.get? img = heap.get? img ∧
      out.2 ≠ img ∧
      ∃ grid, heap.get? img = some grid ∧
        out.1.get? out.2 = some (bboxes.foldl
          (fun acc bbox => Processing.cvRectangle acc bbox.1 bbox.2 color thick)
          grid) := by
  intro heap img bboxes color thick out h
  unfold Processing.draw_boxes at h
  cases hg : heap.get? img with
  | none => rw [hg] at h; exact absurd h (by simp)
  | some grid =>
    rw [hg] at h
    simp only [Option.some.injEq] at h
    have hlt : img < heap.length := by
      by_contra hge
      rw [List.get?_eq_none.mpr (not_lt.mp hge)] at hg
      cases hg
    subst h
    refine ⟨(List.get?_append hlt).trans hg, by omega, grid, rfl, ?_⟩
    exact List.get?_concat_length _ _

/-- Witness for C9_draw_boxes_no_mutation at a concrete one-image heap
and one box. -/
theorem C9_draw_boxes_no_mutation_witness :
    (Processing.exHeap ++ [Processing.exDrawn]).get? 0 =
      Processing.exHeap.get? 0 ∧
    (1 : ℕ) ≠ 0 ∧
    ∃ grid, Processing.exHeap.get? 0 = some grid ∧
      (Processing.exHeap ++ [Processing.exDrawn]).get? 1 =
        some (Processing.exBoxes.foldl
          (fun acc bbox =>
            Processing.cvRectangle acc bbox.1 bbox.2 (0, 0, 255) 6) grid) :=
  C9_draw_boxes_no_mutation Processing.exHeap 0 Processing.exBoxes
    (0, 0, 255) 6 (Processing.exHeap ++ [Processing.exDrawn], 1) rfl
